import Mathlib

/-!
Shallow embedding of `src/spam_rows.py`, a SQLite data-seeding script.

The script fixes a three-column schema, opens `./sample.db`, issues
`CREATE TABLE IF NOT EXISTS` and `CREATE INDEX IF NOT EXISTS`, then loops
`range(10000)` times: it generates one value per schema column
(`random.randint(10, 100)` for INTEGER, a 5-character string over
`string.ascii_uppercase + string.digits` for TEXT, `None` otherwise) and
executes one parameterized INSERT per iteration, committing once at the end.

Randomness is modelled by a deterministic draw source: a function
`g : Nat → Nat` together with a cursor `idx`; each primitive random draw
reads `g idx` and advances the cursor.  `random.randint(10, 100)` consumes
one draw `d` and yields `10 + d % 91`; each of the five `random.choices`
picks consumes one draw `d` and yields `alphabet[d % 36]`.
-/

namespace SpamRows

/-- A deterministic source of random draws: an infinite tape `g` and a
cursor `idx` marking the next unread position. -/
structure RNG where
  g : Nat → Nat
  idx : Nat

/-- Consume one raw draw from the source. -/
def draw (r : RNG) : Nat × RNG :=
  (r.g r.idx, ⟨r.g, r.idx + 1⟩)

/-- A SQLite cell value as produced by the script: a Python int, a Python
str, or `None`. -/
inductive Value where
  | intV : Int → Value
  | textV : String → Value
  | nullV : Value
deriving DecidableEq, Repr

/-- `string.ascii_uppercase + string.digits`: the 36-character alphabet the
TEXT generator samples from. -/
def alphabet : List Char := "ABCDEFGHIJKLMNOPQRSTUVWXYZ0123456789".toList

/-- One pick of `random.choices(string.ascii_uppercase + string.digits, ...)`:
a uniform choice from `alphabet`, modelled as indexing by `d % 36`. -/
def chooseChar (r : RNG) : Char × RNG :=
  let p := draw r
  (alphabet.getD (p.1 % alphabet.length) 'A', p.2)

/-- `random.choices(..., k=n)` followed by join: `n` independent character
picks, in order. -/
def genChars : Nat → RNG → List Char × RNG
  | 0, r => ([], r)
  | n + 1, r =>
    let p := chooseChar r
    let q := genChars n p.2
    (p.1 :: q.1, q.2)

/-- The per-column value generator: the `if v == "INTEGER" / elif v == "TEXT"
/ else` dispatch of the inner loop.  `random.randint(10, 100)` is one draw
mapped into the closed range `[10, 100]`; TEXT is five character picks; any
other tag appends `None` and consumes no randomness. -/
def genValue (tag : String) (r : RNG) : Value × RNG :=
  if tag = "INTEGER" then
    let p := draw r
    (Value.intV ((10 + p.1 % 91 : Nat) : Int), p.2)
  else if tag = "TEXT" then
    let p := genChars 5 r
    (Value.textV (String.mk p.1), p.2)
  else
    (Value.nullV, r)

/-- A table schema: an ordered association of column name to declared type
tag, as iterated by `schema.items()` (Python dicts preserve insertion
order). -/
abbrev Schema := List (String × String)

/-- The fixed schema of the script: `{"id": "INTEGER", "name": "TEXT",
"age": "INTEGER"}`. -/
def schema : Schema := [("id", "INTEGER"), ("name", "TEXT"), ("age", "INTEGER")]

/-- `data = []; for v in schema.values(): data.append(...)`: one generated
value per schema column, in schema order. -/
def genRow : Schema → RNG → List Value × RNG
  | [], r => ([], r)
  | kv :: rest, r =>
    let p := genValue kv.2 r
    let q := genRow rest p.2
    (p.1 :: q.1, q.2)

/-- `', '.join(f'{k} {v}' for k, v in schema.items())`: the column-definition
pieces of the CREATE TABLE statement, in schema order. -/
def columnDefs (s : Schema) : List String :=
  s.map fun kv => kv.1 ++ " " ++ kv.2

/-- `', '.join('?' for _ in data)`: one placeholder per generated value. -/
def placeholders (data : List Value) : List String :=
  data.map fun _ => "?"

/-- The persistent table `RandomData`: its declared columns, whether the
secondary index on `name` exists, and its rows in insertion order. -/
structure Table where
  cols : Schema
  hasNameIndex : Bool
  rows : List (List Value)
deriving DecidableEq, Repr

/-- `CREATE TABLE IF NOT EXISTS`: if the database has no table yet, create an
empty one with the schema-derived column definitions; otherwise leave the
existing table untouched. -/
def ensureTable (s : Schema) : Option Table → Table
  | none => ⟨s, false, []⟩
  | some t => t

/-- `CREATE INDEX IF NOT EXISTS idx_RandomData_name`: record that the
secondary index on `name` exists; rows and columns are untouched. -/
def ensureIndex (t : Table) : Table :=
  { t with hasNameIndex := true }

/-- One executed `INSERT INTO RandomData VALUES (...)`: append the row. -/
def insertRow (row : List Value) (t : Table) : Table :=
  { t with rows := t.rows ++ [row] }

/-- The `for _ in range(n)` loop: each iteration generates one row and
executes one INSERT.  Returns the final table, the final draw source, and
the number of INSERT statements executed. -/
def seedLoop (s : Schema) : Nat → Table → RNG → Table × RNG × Nat
  | 0, t, r => (t, r, 0)
  | n + 1, t, r =>
    let p := genRow s r
    let q := seedLoop s n (insertRow p.1 t) p.2
    (q.1, q.2.1, q.2.2 + 1)

/-- `conn.commit()`: the single final commit, which makes the in-memory table
durable; it cannot fail on an open connection, modelled as always
succeeding with the table unchanged. -/
def commit (t : Table) : Option Table :=
  some t

/-- One run of the seeder against a prior database state: ensure the table,
ensure the index, run the insert loop `n` times. -/
def seedRun (s : Schema) (n : Nat) (db : Option Table) (r : RNG) :
    Table × RNG × Nat :=
  seedLoop s n (ensureIndex (ensureTable s db)) r

/-- The script as written: `seedRun` with the fixed schema and `range(10000)`. -/
def spamRows (db : Option Table) (r : RNG) : Table × RNG × Nat :=
  seedRun schema 10000 db r

/-- Row count of a database state; a missing table holds no rows. -/
def rowCount : Option Table → Nat
  | none => 0
  | some t => t.rows.length

/-- Rows of a database state; a missing table holds no rows. -/
def rowsOf : Option Table → List (List Value)
  | none => []
  | some t => t.rows

/-- Two draw sources produce the same sequence of draws from their current
cursors onward. -/
def SameDraws (r1 r2 : RNG) : Prop :=
  ∀ k, r1.g (r1.idx + k) = r2.g (r2.idx + k)

theorem rowsOf_length (db : Option Table) : (rowsOf db).length = rowCount db := by
  cases db <;> rfl

/-- The insert loop appends exactly `n` fresh rows after the prior rows and
reports exactly `n` executed INSERT statements. -/
theorem seedLoop_spec (s : Schema) :
    ∀ (n : Nat) (t : Table) (r : RNG),
      ∃ new : List (List Value),
        (seedLoop s n t r).1.rows = t.rows ++ new ∧
        new.length = n ∧ (seedLoop s n t r).2.2 = n
  | 0, t, r => ⟨[], by simp [seedLoop]⟩
  | n + 1, t, r => by
    obtain ⟨new, h1, h2, h3⟩ :=
      seedLoop_spec s n (insertRow (genRow s r).1 t) (genRow s r).2
    refine ⟨(genRow s r).1 :: new, ?_, by simp [h2], ?_⟩
    · simp only [seedLoop]
      rw [h1]
      simp [insertRow]
    · simp only [seedLoop]
      rw [h3]

/-- A run appends exactly `n` fresh rows after the prior database rows. -/
theorem seedRun_rows (s : Schema) (n : Nat) (db : Option Table) (r : RNG) :
    ∃ new : List (List Value),
      (seedRun s n db r).1.rows = rowsOf db ++ new ∧
      new.length = n ∧ (seedRun s n db r).2.2 = n := by
  obtain ⟨new, h1, h2, h3⟩ := seedLoop_spec s n (ensureIndex (ensureTable s db)) r
  refine ⟨new, ?_, h2, h3⟩
  cases db with
  | none => simpa [seedRun, ensureIndex, ensureTable, rowsOf] using h1
  | some t => simpa [seedRun, ensureIndex, ensureTable, rowsOf] using h1

/-- Claim C1: every run with target row count `n` against any prior table
state executes exactly `n` INSERT statements and grows the row count by
exactly `n`; in particular two successive runs with `n = 5` starting from a
missing table end with 10 total rows. -/
theorem C1_run_executes_n_inserts_and_grows_count_by_n
    (s : Schema) (n : Nat) (db : Option Table) (r : RNG) :
    (seedRun s n db r).2.2 = n ∧
    (seedRun s n db r).1.rows.length = rowCount db + n ∧
    (seedRun s 5 (some (seedRun s 5 none r).1)
      ((seedRun s 5 none r).2.1)).1.rows.length = 10 := by
  obtain ⟨new, h1, h2, h3⟩ := seedRun_rows s n db r
  refine ⟨h3, ?_, ?_⟩
  · rw [h1]
    simp [h2, rowsOf_length]
  · obtain ⟨n1, g1, l1, -⟩ := seedRun_rows s 5 none r
    obtain ⟨n2, g2, l2, -⟩ :=
      seedRun_rows s 5 (some (seedRun s 5 none r).1) ((seedRun s 5 none r).2.1)
    rw [g2]
    simp [rowsOf, g1, l1, l2]

/-- Claim C8: a run only appends: every row present beforehand is still
present, unmodified and in place, as the unchanged prefix of the final row
list; the suffix is exactly the `n` new rows. -/
theorem C8_run_preserves_prior_rows_append_only
    (s : Schema) (n : Nat) (db : Option Table) (r : RNG) :
    ∃ new : List (List Value),
      (seedRun s n db r).1.rows = rowsOf db ++ new ∧ new.length = n := by
  obtain ⟨new, h1, h2, -⟩ := seedRun_rows s n db r
  exact ⟨new, h1, h2⟩

/-- Claim C7: with `n = 0` the run creates the table when it is absent,
executes zero INSERT statements, leaves the row count unchanged, and the
final commit succeeds. -/
theorem C7_zero_run_creates_table_inserts_nothing
    (s : Schema) (db : Option Table) (r : RNG) :
    (seedRun s 0 db r).2.2 = 0 ∧
    (seedRun s 0 db r).1.rows.length = rowCount db ∧
    commit (seedRun s 0 db r).1 = some (seedRun s 0 db r).1 ∧
    (db = none → (seedRun s 0 db r).1.cols = s) := by
  cases db with
  | none => simp [seedRun, seedLoop, ensureIndex, ensureTable, commit, rowCount]
  | some t => simp [seedRun, seedLoop, ensureIndex, ensureTable, commit, rowCount]

theorem C7_zero_run_creates_table_inserts_nothing_witness :
    ((none : Option Table) = none) ∧
    (seedRun schema 0 none ⟨fun _ => 0, 0⟩).2.2 = 0 ∧
    (seedRun schema 0 none ⟨fun _ => 0, 0⟩).1.cols = schema := by
  refine ⟨rfl, ?_, ?_⟩
  · exact (C7_zero_run_creates_table_inserts_nothing schema none ⟨fun _ => 0, 0⟩).1
  · exact (C7_zero_run_creates_table_inserts_nothing schema none ⟨fun _ => 0, 0⟩).2.2.2 rfl

/-- Claim C4: `CREATE TABLE IF NOT EXISTS` is idempotent: when the table
already exists it is returned untouched (columns included), and ensuring
twice equals ensuring once, with no error possible (`ensureTable` is
total). -/
theorem C4_ensure_table_idempotent (s : Schema) (db : Option Table) (t : Table) :
    ensureTable s (some t) = t ∧
    (ensureTable s (some t)).cols = t.cols ∧
    ensureTable s (some (ensureTable s db)) = ensureTable s db :=
  ⟨rfl, rfl, rfl⟩

/-- Claim C2: every generated INTEGER value lies in the closed range
`[10, 100]`, and both endpoints are attainable. -/
theorem C2_integer_values_in_10_100 :
    (∀ r : RNG, ∃ x : Int,
        genValue "INTEGER" r = (Value.intV x, (draw r).2) ∧ 10 ≤ x ∧ x ≤ 100) ∧
    (∃ r : RNG, (genValue "INTEGER" r).1 = Value.intV 10) ∧
    (∃ r : RNG, (genValue "INTEGER" r).1 = Value.intV 100) := by
  refine ⟨fun r => ⟨((10 + (draw r).1 % 91 : Nat) : Int), rfl, ?_, ?_⟩,
    ⟨⟨fun _ => 0, 0⟩, by decide⟩, ⟨⟨fun _ => 90, 0⟩, by decide⟩⟩
  · have h : (draw r).1 % 91 < 91 := Nat.mod_lt _ (by decide)
    omega
  · have h : (draw r).1 % 91 < 91 := Nat.mod_lt _ (by decide)
    omega

theorem chooseChar_mem (r : RNG) : (chooseChar r).1 ∈ alphabet := by
  have h : (draw r).1 % alphabet.length < alphabet.length :=
    Nat.mod_lt _ (by decide)
  have he := List.getD_eq_getElem alphabet 'A' h
  simp only [chooseChar]
  rw [he]
  exact List.getElem_mem h

theorem genChars_length : ∀ (n : Nat) (r : RNG), (genChars n r).1.length = n
  | 0, _ => rfl
  | n + 1, r => by simp [genChars, genChars_length n]

theorem genChars_mem :
    ∀ (n : Nat) (r : RNG) (c : Char), c ∈ (genChars n r).1 → c ∈ alphabet
  | n + 1, r, c, h => by
    rcases (List.mem_cons).1 (by simpa [genChars] using h) with h1 | h2
    · exact h1 ▸ chooseChar_mem r
    · exact genChars_mem n (chooseChar r).2 c h2

theorem alphabet_upper_or_digit :
    ∀ c ∈ alphabet, ('A' ≤ c ∧ c ≤ 'Z') ∨ ('0' ≤ c ∧ c ≤ '9') := by
  decide

/-- Claim C3: every generated TEXT value has length exactly 5 and each of
its characters is an uppercase Latin letter or a decimal digit. -/
theorem C3_text_values_are_5_char_alphanumeric (r : RNG) :
    ∃ s : String,
      genValue "TEXT" r = (Value.textV s, (genChars 5 r).2) ∧
      s.length = 5 ∧
      ∀ c ∈ s.data, ('A' ≤ c ∧ c ≤ 'Z') ∨ ('0' ≤ c ∧ c ≤ '9') := by
  refine ⟨String.mk (genChars 5 r).1, rfl, ?_, ?_⟩
  · simpa [String.length] using genChars_length 5 r
  · intro c hc
    exact alphabet_upper_or_digit c (genChars_mem 5 r c (by simpa using hc))

theorem C3_text_values_are_5_char_alphanumeric_witness :
    ∃ s : String,
      genValue "TEXT" ⟨fun _ => 0, 0⟩ = (Value.textV s, (genChars 5 ⟨fun _ => 0, 0⟩).2) ∧
      s.length = 5 ∧
      ∀ c ∈ s.data, ('A' ≤ c ∧ c ≤ 'Z') ∨ ('0' ≤ c ∧ c ≤ '9') :=
  C3_text_values_are_5_char_alphanumeric ⟨fun _ => 0, 0⟩

theorem genRow_length : ∀ (s : Schema) (r : RNG), (genRow s r).1.length = s.length
  | [], _ => rfl
  | kv :: rest, r => by simp [genRow, genRow_length rest]

theorem genRow_get :
    ∀ (s : Schema) (r : RNG) (i : Nat) (h : i < s.length),
      ∃ r2 : RNG, (genRow s r).1.getD i Value.nullV = (genValue (s.get ⟨i, h⟩).2 r2).1
  | [], _, i, h => absurd h (by simp)
  | kv :: rest, r, 0, _ => ⟨r, by simp [genRow]⟩
  | kv :: rest, r, i + 1, h => by
    obtain ⟨r2, hr⟩ := genRow_get rest (genValue kv.2 r).2 i (by simpa using h)
    exact ⟨r2, by simpa [genRow] using hr⟩

theorem columnDefs_get :
    ∀ (s : Schema) (i : Nat) (h : i < s.length),
      (columnDefs s).getD i "" = (s.get ⟨i, h⟩).1 ++ " " ++ (s.get ⟨i, h⟩).2
  | [], i, h => absurd h (by simp)
  | kv :: rest, 0, _ => rfl
  | kv :: rest, i + 1, h => by
    simpa [columnDefs] using columnDefs_get rest i (by simpa using h)

/-- Claim C5: schema order drives everything in lock-step: the CREATE
statement's `i`-th column definition comes from the `i`-th schema entry,
the `i`-th generated value is produced by the generator for the `i`-th
schema column's type tag, and the row length — hence the placeholder
count of the parameterized INSERT — equals the number of schema columns. -/
theorem C5_schema_order_drives_create_and_insert (s : Schema) (r : RNG) :
    (columnDefs s).length = s.length ∧
    (genRow s r).1.length = s.length ∧
    (placeholders (genRow s r).1).length = s.length ∧
    ∀ (i : Nat) (h : i < s.length),
      (columnDefs s).getD i "" = (s.get ⟨i, h⟩).1 ++ " " ++ (s.get ⟨i, h⟩).2 ∧
      ∃ r2 : RNG, (genRow s r).1.getD i Value.nullV = (genValue (s.get ⟨i, h⟩).2 r2).1 := by
  refine ⟨by simp [columnDefs], genRow_length s r, ?_, ?_⟩
  · simp [placeholders, genRow_length s r]
  · intro i h
    exact ⟨columnDefs_get s i h, genRow_get s r i h⟩

theorem C5_schema_order_drives_create_and_insert_witness :
    1 < schema.length ∧
    (columnDefs schema).getD 1 "" = "name TEXT" ∧
    (placeholders (genRow schema ⟨fun _ => 0, 0⟩).1).length = schema.length := by
  refine ⟨by decide, ?_,
    (C5_schema_order_drives_create_and_insert schema ⟨fun _ => 0, 0⟩).2.2.1⟩
  have h :=
    ((C5_schema_order_drives_create_and_insert schema ⟨fun _ => 0, 0⟩).2.2.2 1 (by decide)).1
  simpa [schema] using h

/-- Claim C6: an unrecognized type tag produces the null value (consuming no
randomness) rather than an error, and the INSERT proceeds, appending the
row holding that null. -/
theorem C6_unknown_tag_yields_null_and_insert_proceeds
    (tag : String) (h1 : tag ≠ "INTEGER") (h2 : tag ≠ "TEXT") (r : RNG) (t : Table) :
    genValue tag r = (Value.nullV, r) ∧
    (insertRow [(genValue tag r).1] t).rows = t.rows ++ [[Value.nullV]] := by
  have hv : genValue tag r = (Value.nullV, r) := by simp [genValue, h1, h2]
  exact ⟨hv, by simp [insertRow, hv]⟩

theorem C6_unknown_tag_yields_null_and_insert_proceeds_witness :
    ("REAL" : String) ≠ "INTEGER" ∧ ("REAL" : String) ≠ "TEXT" ∧
    genValue "REAL" ⟨fun _ => 0, 0⟩ = (Value.nullV, ⟨fun _ => 0, 0⟩) ∧
    (insertRow [(genValue "REAL" ⟨fun _ => 0, 0⟩).1] ⟨schema, false, []⟩).rows =
      ([] : List (List Value)) ++ [[Value.nullV]] := by
  refine ⟨by decide, by decide, ?_, ?_⟩
  · exact (C6_unknown_tag_yields_null_and_insert_proceeds "REAL" (by decide) (by decide)
      ⟨fun _ => 0, 0⟩ ⟨schema, false, []⟩).1
  · exact (C6_unknown_tag_yields_null_and_insert_proceeds "REAL" (by decide) (by decide)
      ⟨fun _ => 0, 0⟩ ⟨schema, false, []⟩).2

theorem genRow_schema_shape (r : RNG) :
    ∃ (a : Int) (s : String) (b : Int),
      (genRow schema r).1 = [Value.intV a, Value.textV s, Value.intV b] :=
  ⟨((10 + (draw r).1 % 91 : Nat) : Int),
   String.mk (genChars 5 (draw r).2).1,
   ((10 + (draw (genChars 5 (draw r).2).2).1 % 91 : Nat) : Int),
   rfl⟩

theorem seedLoop_mem (s : Schema) :
    ∀ (n : Nat) (t : Table) (r : RNG) (row : List Value),
      row ∈ (seedLoop s n t r).1.rows →
      row ∈ t.rows ∨ ∃ r2 : RNG, row = (genRow s r2).1
  | 0, _, _, _, h => Or.inl h
  | n + 1, t, r, row, h => by
    have h2 : row ∈ (seedLoop s n (insertRow (genRow s r).1 t) (genRow s r).2).1.rows := by
      simpa [seedLoop] using h
    rcases seedLoop_mem s n (insertRow (genRow s r).1 t) (genRow s r).2 row h2 with hin | hgen
    · have hin2 : row ∈ t.rows ∨ row = (genRow s r).1 := by simpa [insertRow] using hin
      rcases hin2 with ha | hb
      · exact Or.inl ha
      · exact Or.inr ⟨r, hb⟩
    · exact Or.inr hgen

/-- Claim C9: under the fixed three-column schema every row the loop
inserts (any row of the final table that was not already present) has the
shape integer, text, integer — all three values non-null, so the null
fallback is never exercised. -/
theorem C9_fixed_schema_rows_are_fully_non_null
    (n : Nat) (t : Table) (r : RNG) (row : List Value)
    (hmem : row ∈ (seedLoop schema n t r).1.rows) :
    row ∈ t.rows ∨
    ∃ (a : Int) (s : String) (b : Int),
      row = [Value.intV a, Value.textV s, Value.intV b] ∧
      Value.intV a ≠ Value.nullV ∧ Value.textV s ≠ Value.nullV ∧
      Value.intV b ≠ Value.nullV := by
  rcases seedLoop_mem schema n t r row hmem with hin | ⟨r2, hr⟩
  · exact Or.inl hin
  · obtain ⟨a, s, b, hsh⟩ := genRow_schema_shape r2
    exact Or.inr ⟨a, s, b, hr.trans hsh, by simp, by simp, by simp⟩

theorem C9_fixed_schema_rows_are_fully_non_null_witness :
    [Value.intV 10, Value.textV "AAAAA", Value.intV 10] ∈
      (seedLoop schema 1 ⟨schema, false, []⟩ ⟨fun _ => 0, 0⟩).1.rows ∧
    ([Value.intV 10, Value.textV "AAAAA", Value.intV 10] ∈ (⟨schema, false, []⟩ : Table).rows ∨
     ∃ (a : Int) (s : String) (b : Int),
       [Value.intV 10, Value.textV "AAAAA", Value.intV 10] =
         [Value.intV a, Value.textV s, Value.intV b] ∧
       Value.intV a ≠ Value.nullV ∧ Value.textV s ≠ Value.nullV ∧
       Value.intV b ≠ Value.nullV) := by
  have hm : [Value.intV 10, Value.textV "AAAAA", Value.intV 10] ∈
      (seedLoop schema 1 ⟨schema, false, []⟩ ⟨fun _ => 0, 0⟩).1.rows := by decide
  exact ⟨hm, C9_fixed_schema_rows_are_fully_non_null 1 ⟨schema, false, []⟩ ⟨fun _ => 0, 0⟩ _ hm⟩

theorem draw_congr {r1 r2 : RNG} (h : SameDraws r1 r2) :
    (draw r1).1 = (draw r2).1 ∧ SameDraws (draw r1).2 (draw r2).2 := by
  constructor
  · simpa using h 0
  · intro k
    have h1 := h (k + 1)
    have e1 : r1.idx + 1 + k = r1.idx + (k + 1) := by omega
    have e2 : r2.idx + 1 + k = r2.idx + (k + 1) := by omega
    simp only [draw]
    rw [e1, e2]
    exact h1

theorem chooseChar_congr {r1 r2 : RNG} (h : SameDraws r1 r2) :
    (chooseChar r1).1 = (chooseChar r2).1 ∧ SameDraws (chooseChar r1).2 (chooseChar r2).2 := by
  obtain ⟨hv, hs⟩ := draw_congr h
  exact ⟨by simp [chooseChar, hv], hs⟩

theorem genChars_congr :
    ∀ (n : Nat) {r1 r2 : RNG}, SameDraws r1 r2 →
      (genChars n r1).1 = (genChars n r2).1 ∧ SameDraws (genChars n r1).2 (genChars n r2).2
  | 0, _, _, h => ⟨rfl, h⟩
  | n + 1, r1, r2, h => by
    obtain ⟨hv, hs⟩ := chooseChar_congr h
    obtain ⟨hv2, hs2⟩ := genChars_congr n hs
    exact ⟨by simp [genChars, hv, hv2], hs2⟩

theorem genValue_congr (tag : String) {r1 r2 : RNG} (h : SameDraws r1 r2) :
    (genValue tag r1).1 = (genValue tag r2).1 ∧
    SameDraws (genValue tag r1).2 (genValue tag r2).2 := by
  by_cases h1 : tag = "INTEGER"
  · obtain ⟨hv, hs⟩ := draw_congr h
    exact ⟨by simp [genValue, h1, hv], by simpa [genValue, h1] using hs⟩
  · by_cases h2 : tag = "TEXT"
    · obtain ⟨hv, hs⟩ := genChars_congr 5 h
      exact ⟨by simp [genValue, h1, h2, hv], by simpa [genValue, h1, h2] using hs⟩
    · exact ⟨by simp [genValue, h1, h2], by simpa [genValue, h1, h2] using h⟩

theorem genRow_congr :
    ∀ (s : Schema) {r1 r2 : RNG}, SameDraws r1 r2 →
      (genRow s r1).1 = (genRow s r2).1 ∧ SameDraws (genRow s r1).2 (genRow s r2).2
  | [], _, _, h => ⟨rfl, h⟩
  | kv :: rest, r1, r2, h => by
    obtain ⟨hv, hs⟩ := genValue_congr kv.2 h
    obtain ⟨hv2, hs2⟩ := genRow_congr rest hs
    exact ⟨by simp [genRow, hv, hv2], by simpa [genRow] using hs2⟩

theorem seedLoop_congr (s : Schema) :
    ∀ (n : Nat) (t : Table) {r1 r2 : RNG}, SameDraws r1 r2 →
      (seedLoop s n t r1).1 = (seedLoop s n t r2).1 ∧
      (seedLoop s n t r1).2.2 = (seedLoop s n t r2).2.2 ∧
      SameDraws (seedLoop s n t r1).2.1 (seedLoop s n t r2).2.1
  | 0, _, _, _, h => ⟨rfl, rfl, h⟩
  | n + 1, t, r1, r2, h => by
    obtain ⟨hv, hs⟩ := genRow_congr s h
    obtain ⟨ht, hc, hs2⟩ := seedLoop_congr s n (insertRow (genRow s r1).1 t) hs
    refine ⟨?_, ?_, ?_⟩
    · simp only [seedLoop]
      rw [← hv]
      exact ht
    · simp only [seedLoop]
      rw [← hv, hc]
    · simp only [seedLoop]
      rw [← hv]
      exact hs2

/-- Claim C10: the seeder is deterministic in its randomness: two runs that
consume the same sequence of draws from the same prior database state
produce identical final tables (hence identical inserted rows in identical
order) and the same number of executed INSERT statements. -/
theorem C10_same_draws_same_database
    (s : Schema) (n : Nat) (db : Option Table) (r1 r2 : RNG) (h : SameDraws r1 r2) :
    (seedRun s n db r1).1 = (seedRun s n db r2).1 ∧
    (seedRun s n db r1).2.2 = (seedRun s n db r2).2.2 := by
  obtain ⟨ht, hc, -⟩ := seedLoop_congr s n (ensureIndex (ensureTable s db)) h
  exact ⟨ht, hc⟩

theorem C10_same_draws_same_database_witness :
    SameDraws ⟨fun k => k, 0⟩ ⟨fun k => k - 3, 3⟩ ∧
    (seedRun schema 2 none ⟨fun k => k, 0⟩).1 =
      (seedRun schema 2 none ⟨fun k => k - 3, 3⟩).1 := by
  have hs : SameDraws ⟨fun k => k, 0⟩ ⟨fun k => k - 3, 3⟩ := by
    intro k
    show 0 + k = 3 + k - 3
    omega
  exact ⟨hs, (C10_same_draws_same_database schema 2 none ⟨fun k => k, 0⟩
    ⟨fun k => k - 3, 3⟩ hs).1⟩

end SpamRows
